import Mathlib

/-!
Shallow embedding of the two source files of the `custom-usb-hub` KiCad
library-manager scripts:

* `Hardware/scripts/cli_main.py` — argument parsing (`parse_arguments`) and
  the dispatch loop (`main`), embedded as pure functions producing a trace of
  observable events (`CEvent`).  The external `library_manager` functions
  (`process_zip`, `purge_zip_contents`, `list_symbols_simple`) are opaque: the
  trace only records that they were called and with which argument.  The
  filesystem (`source_folder.glob("*.zip")`) is an explicit oracle parameter.

* `Hardware/scripts/gui_app.py` — the subprocess wrapper
  (`execute_library_action`), checkbox scanning
  (`get_active_files_for_processing`), the action callback (`process_action`),
  and the file-list-rebuilding operations (`build_file_list_ui`,
  `clear_view_state`, `reload_folder_from_path`, `initial_load`,
  `show_native_folder_dialog`), embedded over an explicit GUI state and
  filesystem/subprocess oracles.

Paths are modelled as strings (`str(p)` is the identity); `Path.resolve()` is
modelled as the identity on the abstract path strings.
-/

namespace KicadLibMgr

/-- A single quote character, kept out of string literals. -/
def sq : String := String.singleton (Char.ofNat 39)

/-- `Path.name`: the final component of a path string. -/
def pathName (p : String) : String :=
  match (p.splitOn "/").getLast? with
  | some n => n
  | none => p

/-! ## cli_main.py -/

/-- The two externally defined action functions of `library_manager` that
`main` dispatches to.  Their bodies are out of scope; only the identity of
the function called is tracked. -/
inductive ActionFunc
  | processZip
  | purgeZipContents
deriving DecidableEq, Repr

/-- Observable events of a `cli_main.py` run: printing a line, calling an
action function on a zip path, or calling `list_symbols_simple`. -/
inductive CEvent
  | print (s : String)
  | call (f : ActionFunc) (zipPath : String)
  | listSymbols (lib : String) (printList : Bool)
deriving DecidableEq, Repr

/-- The parsed arguments produced by `parse_arguments` (argparse namespace):
the `action` positional, the optional `--input_folder`, and the remaining
`zip_files` positionals. -/
structure Args where
  action : String
  input_folder : Option String
  zip_files : List String
deriving DecidableEq, Repr

/-- Whether argparse treats a token as an option string: it begins with `-`,
has at least one more character, and does not look like a negative number
(second character a digit or a dot), in which case argparse treats it as a
positional. -/
def looksLikeOption (a : String) : Bool :=
  match a.data with
  | c1 :: c2 :: _ => c1 = Char.ofNat 45 && ¬ c2.isDigit && c2 ≠ Char.ofNat 46
  | _ => false

/-- Token scan of argparse: `--input_folder` consumes the following token as
its value (error when it is missing); any other option-looking token is an
unrecognized option and is rejected; everything else is collected, in order,
as a positional. -/
def parseArgsAux : List String → Option String → List String → Except String (Option String × List String)
  | [], inf, pos => .ok (inf, pos.reverse)
  | a :: rest, inf, pos =>
    if a = "--input_folder" then
      match rest with
      | [] => .error "argument --input_folder: expected one argument"
      | v :: rest2 => parseArgsAux rest2 (some v) pos
    else if looksLikeOption a then
      .error ("unrecognized arguments: " ++ a)
    else
      parseArgsAux rest inf (a :: pos)

/-- `parse_arguments()` of cli_main.py: the first positional is the mandatory
`action` argument with `choices=["process", "purge"]`; the remaining
positionals are `zip_files` (`nargs="*"`, default `[]`). -/
def parse_arguments (argv : List String) : Except String Args :=
  match parseArgsAux argv none [] with
  | .error e => .error e
  | .ok (inf, pos) =>
    match pos with
    | [] => .error "the following arguments are required: action"
    | a :: zips =>
      if a = "process" || a = "purge" then .ok ⟨a, inf, zips⟩
      else .error ("argument action: invalid choice: " ++ sq ++ a ++ sq)

/-- `source_folder = Path(args.input_folder) if args.input_folder else INPUT_ZIP_FOLDER`.
The condition is a Python truthiness test: an absent `--input_folder` AND an
empty-string `--input_folder` both fall back to `INPUT_ZIP_FOLDER`. -/
def mainSourceFolder (input_zip_folder : String) (args : Args) : String :=
  match args.input_folder with
  | some f => if f = "" then input_zip_folder else f
  | none => input_zip_folder

/-- The zip-path list `main` acts on: the `zip_files` positionals when
non-empty, otherwise the result of `source_folder.glob("*.zip")`. -/
def mainZipPaths (glob : String → List String) (input_zip_folder : String) (args : Args) : List String :=
  if args.zip_files.isEmpty then glob (mainSourceFolder input_zip_folder args)
  else args.zip_files

/-- `is_purge = args.action == "purge"`; `action_func = purge_zip_contents if is_purge else process_zip`. -/
def actionFuncOf (action : String) : ActionFunc :=
  if action = "purge" then ActionFunc.purgeZipContents else ActionFunc.processZip

/-- `mode_name = "PURGE" if is_purge else "PROCESSING"`. -/
def modeName (action : String) : String :=
  if action = "purge" then "PURGE" else "PROCESSING"

/-- The two trailing events of every `main` run: the header print and the
`list_symbols_simple(PROJECT_SYMBOL_LIB, print_list=True)` call. -/
def finalEvents (project_symbol_lib : String) : List CEvent :=
  [CEvent.print "\n--- Final List of Main Symbols ---",
   CEvent.listSymbols project_symbol_lib true]

/-- The event trace of `main()` after successful argument parsing, with the
filesystem glob an oracle and the `library_manager` configuration constants
(`INPUT_ZIP_FOLDER`, `PROJECT_SYMBOL_LIB`) passed in. -/
def mainTrace (glob : String → List String) (input_zip_folder project_symbol_lib : String)
    (args : Args) : List CEvent :=
  let zip_paths := mainZipPaths glob input_zip_folder args
  if zip_paths.isEmpty then
    CEvent.print ("Warning: No ZIP files found in " ++ sq ++
        mainSourceFolder input_zip_folder args ++ sq ++ " to process/purge.")
      :: finalEvents project_symbol_lib
  else
    (zip_paths.map (fun zip_file =>
        [CEvent.print ("\n--- " ++ modeName args.action ++ " " ++ pathName zip_file ++ " ---"),
         CEvent.call (actionFuncOf args.action) zip_file])).flatten
      ++ finalEvents project_symbol_lib

/-- The sequence of action-function calls contained in a trace, in order. -/
def callsOf (t : List CEvent) : List (ActionFunc × String) :=
  t.filterMap (fun e =>
    match e with
    | CEvent.call f p => some (f, p)
    | _ => none)

/-! ## gui_app.py -/

/-- Outcome of `subprocess.run(cmd, capture_output=True, ...)` as observed by
the `try` block of `execute_library_action`: normal completion with a return
code and captured streams, a `FileNotFoundError`, or some other exception
(carrying its message string). -/
inductive RunOutcome
  | completed (returncode : Int) (stdout stderr : String)
  | fileNotFound
  | exc (msg : String)
deriving DecidableEq, Repr

/-- `cmd = [python_exe, str(CLI_SCRIPT_PATH), action] + [str(p) for p in paths]`
with `action = "purge" if is_purge else "process"`. -/
def execCmd (python_exe cli_script_path : String) (paths : List String) (is_purge : Bool) : List String :=
  [python_exe, cli_script_path, if is_purge then "purge" else "process"] ++ paths

/-- `"--- CLI ERROR START ---" ... "--- CLI ERROR END ---"` wrapper built in the
non-zero-return-code branch of `execute_library_action`. -/
def cliErrorWrap (returncode : Int) (output : String) : String :=
  "--- CLI ERROR START ---\n" ++
  ("CLI failed with exit code " ++ toString returncode ++ "\n") ++
  output ++
  "--- CLI ERROR END ---"

/-- `execute_library_action(paths, is_purge)` of gui_app.py, with the
subprocess an oracle `run : cmd → RunOutcome`.  The first component is the
returned `(success, output)` pair; the second records the command lines
actually handed to `subprocess.run` (exactly one per call). -/
def execute_library_action (run : List String → RunOutcome)
    (python_exe cli_script_path : String) (paths : List String) (is_purge : Bool) :
    (Bool × String) × List (List String) :=
  let cmd := execCmd python_exe cli_script_path paths is_purge
  match run cmd with
  | RunOutcome.completed rc out err =>
    let output := out ++ err
    if rc = 0 then ((true, output), [cmd])
    else ((false, cliErrorWrap rc output), [cmd])
  | RunOutcome.fileNotFound =>
    ((false, "ERROR: Python interpreter or CLI script not found."), [cmd])
  | RunOutcome.exc e =>
    ((false, "CRITICAL ERROR during CLI execution: " ++ e), [cmd])

/-- The checkbox tag `f"checkbox_{i}"`. -/
def checkbox_tag (i : Nat) : String := "checkbox_" ++ toString i

/-- `get_active_files_for_processing()`: scan `enumerate(all_selected_paths)`,
appending `p` whenever `dpg.does_item_exist(tag)` and `dpg.get_value(tag)`.
The widget store is the oracle `ui : tag → Option Bool` (`none` = the item
does not exist, `some v` = it exists with checkbox value `v`). -/
def get_active_files_for_processing (ui : String → Option Bool)
    (all_selected_paths : List String) : List String :=
  all_selected_paths.enum.foldl
    (fun active_paths ip =>
      match ui (checkbox_tag ip.1) with
      | some true => active_paths ++ [ip.2]
      | some false => active_paths
      | none => active_paths) []

/-- Python `str.splitlines` on newline-separated text: split on the line
separator and drop the trailing empty piece (so `"".splitlines() == []`). -/
def splitlines (s : String) : List String :=
  let parts := s.splitOn "\n"
  match parts.getLast? with
  | some l => if l = "" then parts.dropLast else parts
  | none => parts

/-- Observable events of the `process_action` callback: a `log_message` call
(only the message text is tracked) or the spawning of a subprocess with a
command line. -/
inductive GEvent
  | log (msg : String)
  | spawn (cmd : List String)
deriving DecidableEq, Repr

/-- Whether an event is a subprocess spawn. -/
def isSpawnEvent : GEvent → Bool
  | GEvent.spawn _ => true
  | GEvent.log _ => false

/-- `process_action(sender, app_data, is_purge)` of gui_app.py as an event
trace: compute the active files; when empty, log an error and return;
otherwise log the initiation message, run `execute_library_action` (whose
recorded commands appear as spawn events), log its output line by line, log
the final status, and log the separator and blank lines. -/
def process_action (run : List String → RunOutcome) (python_exe cli_script_path : String)
    (ui : String → Option Bool) (all_selected_paths : List String) (is_purge : Bool) :
    List GEvent :=
  let active_files := get_active_files_for_processing ui all_selected_paths
  if active_files.isEmpty then
    [GEvent.log "ERROR: No active ZIP files selected for action."]
  else
    let action_name := if is_purge then "PURGE" else "PROCESS"
    let er := execute_library_action run python_exe cli_script_path active_files is_purge
    GEvent.log ("--- Initiating " ++ action_name ++ " for " ++
        toString active_files.length ++ " active file(s) ---")
      :: (er.2.map GEvent.spawn
        ++ (splitlines er.1.2).map GEvent.log
        ++ [GEvent.log (if er.1.1 then "[OK] " ++ action_name ++ " SUCCESSFUL."
              else "[FAIL] " ++ action_name ++ " FAILED. See output above."),
            GEvent.log "------------------------------------------------------",
            GEvent.log ""])

/-! ### GUI state and the file-list-rebuilding operations -/

/-- Filesystem oracle for the GUI: directory existence (`exists() and is_dir()`
collapsed into one test), the result of `folder.glob("*.zip")`, and per-file
existence (`p.exists()`). -/
structure FS where
  isDir : String → Bool
  globZips : String → List String
  fileExists : String → Bool

/-- The GUI state touched by the file-list operations: the module-global
`all_selected_paths`, the visibility of the `ACTION_SECTION_TAG` group, the
two status texts, and the log (message texts only).  Checkbox widgets are
not tracked here; `get_active_files_for_processing` reads them through its
own oracle. -/
structure GuiState where
  all_selected_paths : List String
  action_shown : Bool
  current_path_text : String
  file_count_text : String
  log : List String
deriving DecidableEq, Repr

/-- `log_message(None, None, msg)` restricted to what the model tracks. -/
def log_msg (s : GuiState) (m : String) : GuiState :=
  { s with log := s.log ++ [m] }

/-- `build_file_list_ui(zip_paths)`: update the file-count text; on an empty
list set `all_selected_paths = []`, otherwise set `all_selected_paths =
zip_paths` (checkbox creation is not tracked). -/
def build_file_list_ui (s : GuiState) (zip_paths : List String) : GuiState :=
  let s := { s with file_count_text := "Total files found: " ++ toString zip_paths.length }
  if zip_paths.isEmpty then { s with all_selected_paths := [] }
  else { s with all_selected_paths := zip_paths }

/-- `clear_view_state()`: clear the selection, rebuild the empty list, hide
the action section (`ACTION_SECTION_TAG` always exists once the GUI is
built), and log. -/
def clear_view_state (s : GuiState) : GuiState :=
  let s := { s with all_selected_paths := [] }
  let s := build_file_list_ui s []
  let s := { s with action_shown := false }
  log_msg s "Selection cleared."

/-- `reload_folder_from_path(folder_path_str)`: on a missing folder, log an
error and rebuild with `[]` (note: the action section is NOT hidden here);
otherwise glob, filter for existence, update the path text, show or hide the
action section according to `valid_paths`, and rebuild.  The `except` branch
around `glob` is not modelled (the oracle is total). -/
def reload_folder_from_path (fs : FS) (s : GuiState) (folder_path_str : String) : GuiState :=
  let folder_path := folder_path_str
  if ¬ fs.isDir folder_path then
    let s := log_msg s ("ERROR: Folder not found at " ++ sq ++ folder_path ++ sq ++ ".")
    build_file_list_ui s []
  else
    let paths := fs.globZips folder_path
    let valid_paths := paths.filter fs.fileExists
    let s := { s with current_path_text := "Current Folder: " ++ folder_path }
    let s :=
      if ¬ valid_paths.isEmpty then { s with action_shown := true }
      else { s with action_shown := false }
    build_file_list_ui s valid_paths

/-- `initial_load()`: scan `INPUT_ZIP_FOLDER`; on a missing folder log and
return without rebuilding; otherwise glob and filter, show the action
section when files were found (note: it is NOT hidden when none were), and
rebuild. -/
def initial_load (fs : FS) (input_zip_folder : String) (s : GuiState) : GuiState :=
  let target_folder := input_zip_folder
  let s := { s with current_path_text := "Current Folder: " ++ target_folder }
  if ¬ fs.isDir target_folder then
    let s := log_msg s ("ERROR: Input folder not found at " ++ sq ++ target_folder ++ sq ++
        ". Skipping initial load.")
    { s with current_path_text := "Current Folder: (Path Error)" }
  else
    let s := log_msg s ("Checking default folder: " ++ sq ++ target_folder ++ sq)
    let valid_paths := (fs.globZips target_folder).filter fs.fileExists
    let s :=
      if ¬ valid_paths.isEmpty then
        { (log_msg s ("Successfully loaded " ++ toString valid_paths.length ++
            " ZIP file(s) from default path.")) with action_shown := true }
      else
        log_msg s "No ZIP files found in the default folder."
    build_file_list_ui s valid_paths

/-- `Path(p).parent`: drop the final path component. -/
def parentOf (p : String) : String :=
  String.intercalate "/" ((p.splitOn "/").dropLast)

/-- `select_zip_folder()`: the native dialog either is cancelled (`none`,
giving `[]`) or yields a folder whose `*.zip` glob is returned. -/
def select_zip_folder (fs : FS) (dialogChoice : Option String) : List String :=
  match dialogChoice with
  | none => []
  | some f => fs.globZips f

/-- `show_native_folder_dialog(sender, app_data)`: on no paths, log, hide the
action section, rebuild empty and reset the path text; otherwise log and
reload from `paths[0].parent`. -/
def show_native_folder_dialog (fs : FS) (dialogChoice : Option String) (s : GuiState) : GuiState :=
  let paths := select_zip_folder fs dialogChoice
  if paths.isEmpty then
    let s := log_msg s "Folder selection cancelled or no ZIP files found."
    let s := { s with action_shown := false }
    let s := build_file_list_ui s []
    { s with current_path_text := "Current Folder: (None Selected)" }
  else
    let s := log_msg s ("Found " ++ toString paths.length ++ " ZIP file(s).")
    reload_folder_from_path fs s (parentOf (paths.headD ""))

/-- The post-state invariant claimed for the file-list-rebuilding operations:
the action section is shown iff the list of valid ZIP paths is non-empty,
and `all_selected_paths` equals that list. -/
def guiInvariant (s : GuiState) (valid : List String) : Prop :=
  (s.action_shown = true ↔ valid ≠ []) ∧ s.all_selected_paths = valid

/-- A concrete filesystem in which nothing exists. -/
def emptyFS : FS := FS.mk (fun _ => false) (fun _ => []) (fun _ => false)

/-- A concrete GUI state in which the action section is visible. -/
def shownState : GuiState := GuiState.mk [] true "" "" []

/-- A concrete filesystem with one directory `d` holding one zip `d/a.zip`. -/
def oneZipFS : FS :=
  FS.mk (fun _ => true) (fun f => if f = "d" then ["d/a.zip"] else []) (fun _ => true)

/-- A concrete startup GUI state: nothing selected, action section hidden. -/
def startState : GuiState := GuiState.mk [] false "" "" []

/-! ## Helper lemmas -/

theorem callsOf_append (a b : List CEvent) : callsOf (a ++ b) = callsOf a ++ callsOf b :=
  List.filterMap_append a b _

theorem callsOf_finalEvents (lib : String) : callsOf (finalEvents lib) = [] := rfl

theorem callsOf_blocks (f : ActionFunc) (g : String → String) (l : List String) :
    callsOf ((l.map (fun z =>
        [CEvent.print (g z), CEvent.call f z])).flatten) = l.map (fun z => (f, z)) := by
  induction l with
  | nil => rfl
  | cons h t ih =>
    simp only [List.map_cons, List.flatten_cons, callsOf_append, ih]
    rfl

theorem callsOf_mainTrace (glob : String → List String) (inp lib : String) (args : Args) :
    callsOf (mainTrace glob inp lib args)
      = (mainZipPaths glob inp args).map (fun p => (actionFuncOf args.action, p)) := by
  unfold mainTrace
  by_cases h : (mainZipPaths glob inp args).isEmpty
  · rw [List.isEmpty_iff] at h
    simp [h, callsOf, finalEvents]
  · have h' : (mainZipPaths glob inp args).isEmpty = false := by
      simpa using h
    simp only [h', Bool.false_eq_true, if_false, callsOf_append, callsOf_finalEvents,
      callsOf_blocks, List.append_nil]

/-! ## Claim theorems -/

/-- C1: with a non-empty list of selected ZIP paths, `main` dispatches on the
parsed `action`: when it is `purge`, `purge_zip_contents` is applied to each
selected ZIP path; when it is `process`, `process_zip` is applied to each
selected ZIP path; in the order the paths appear in the list. -/
theorem main_dispatches_on_action (glob : String → List String) (inp lib : String)
    (args : Args) (_hne : mainZipPaths glob inp args ≠ []) :
    (args.action = "purge" →
      callsOf (mainTrace glob inp lib args)
        = (mainZipPaths glob inp args).map (fun p => (ActionFunc.purgeZipContents, p))) ∧
    (args.action = "process" →
      callsOf (mainTrace glob inp lib args)
        = (mainZipPaths glob inp args).map (fun p => (ActionFunc.processZip, p))) := by
  constructor
  · intro ha
    rw [callsOf_mainTrace, ha]
    rfl
  · intro ha
    rw [callsOf_mainTrace, ha]
    rfl

/-- Witness for C1 at a concrete input: one selected path, purge mode. -/
theorem main_dispatches_on_action_witness :
    mainZipPaths (fun _ => []) "in" (Args.mk "purge" none ["a.zip"]) ≠ [] ∧
    callsOf (mainTrace (fun _ => []) "in" "lib" (Args.mk "purge" none ["a.zip"]))
      = (mainZipPaths (fun _ => []) "in" (Args.mk "purge" none ["a.zip"])).map
          (fun p => (ActionFunc.purgeZipContents, p)) :=
  ⟨by decide,
   (main_dispatches_on_action (fun _ => []) "in" "lib" (Args.mk "purge" none ["a.zip"])
     (by decide)).1 rfl⟩

/-- C7: a command line whose first positional is neither `process` nor `purge`
is rejected by argument parsing, and a successful parse only ever yields an
action equal to `process` or `purge`. -/
theorem parse_action_choices (argv : List String) :
    (∀ inf a rest, parseArgsAux argv none [] = Except.ok (inf, a :: rest) →
      a ≠ "process" → a ≠ "purge" →
      ∃ e, parse_arguments argv = Except.error e) ∧
    (∀ args, parse_arguments argv = Except.ok args →
      args.action = "process" ∨ args.action = "purge") := by
  constructor
  · intro inf a rest h ha hb
    refine ⟨"argument action: invalid choice: " ++ sq ++ a ++ sq, ?_⟩
    unfold parse_arguments
    rw [h]
    simp [ha, hb]
  · intro args h
    unfold parse_arguments at h
    cases hp : parseArgsAux argv none [] with
    | error e => rw [hp] at h; exact absurd h (by simp)
    | ok p =>
      rw [hp] at h
      obtain ⟨inf, pos⟩ := p
      cases pos with
      | nil => simp at h
      | cons a zips =>
        by_cases hc : a = "process" ∨ a = "purge"
        · have hc' : (a = "process" || a = "purge") = true := by
            rcases hc with hc | hc <;> simp [hc]
          simp only [hc', if_true] at h
          cases h
          exact hc
        · have hc' : (a = "process" || a = "purge") = false := by
            push_neg at hc
            simp [hc.1, hc.2]
          simp [hc'] at h

/-- Witness for C7 at a concrete input: first positional `foo` is rejected. -/
theorem parse_action_choices_witness :
    ∃ e, parse_arguments ["foo"] = Except.error e :=
  (parse_action_choices ["foo"]).1 none "foo" []
    (by simp [parseArgsAux, looksLikeOption]) (by decide) (by decide)

/-- C8 counterexample: the claim reads "the source folder is the
`--input_folder` value when given", but `cli_main.py:80` tests Python
truthiness, so `--input_folder ""` falls back to `INPUT_ZIP_FOLDER`: with no
positional ZIPs, an empty-string `--input_folder` and a glob oracle that
holds a file only in the default folder, the program globs the default
folder while the claimed source-folder formula (`input_folder` when given)
would glob the empty string. -/
theorem empty_input_folder_counterexample :
    mainZipPaths (fun f => if f = "dflt" then ["dflt/g.zip"] else []) "dflt"
        (Args.mk "process" (some "") [])
      ≠ (fun f => if f = "dflt" then ["dflt/g.zip"] else [])
          ((Args.mk "process" (some "") []).input_folder.getD "dflt") := by
  decide

/-- C8 amended: explicit `zip_files` positionals win and the folder is never
scanned (the result is independent of the glob oracle); otherwise the
`--input_folder` value is globbed for `*.zip` when it is given and non-empty
(Python truthiness), and `INPUT_ZIP_FOLDER` is globbed when `--input_folder`
is absent or the empty string. -/
theorem zip_path_precedence (glob : String → List String) (inp : String) (args : Args) :
    (args.zip_files ≠ [] →
      mainZipPaths glob inp args = args.zip_files ∧
      (∀ g : String → List String, mainZipPaths g inp args = args.zip_files)) ∧
    (args.zip_files = [] → ∀ f, args.input_folder = some f → f ≠ "" →
      mainZipPaths glob inp args = glob f) ∧
    (args.zip_files = [] → (args.input_folder = none ∨ args.input_folder = some "") →
      mainZipPaths glob inp args = glob inp) := by
  refine ⟨?_, ?_, ?_⟩
  · intro h
    have he : args.zip_files.isEmpty = false := by
      simpa [List.isEmpty_iff] using h
    exact ⟨by simp [mainZipPaths, he], fun g => by simp [mainZipPaths, he]⟩
  · intro h f hf hne
    simp [mainZipPaths, h, mainSourceFolder, hf, hne]
  · intro h hf
    rcases hf with hf | hf <;> simp [mainZipPaths, h, mainSourceFolder, hf]

/-- Witness for C8 at concrete inputs: an explicit positional beats a glob
oracle that would return a different file; a non-empty `--input_folder` is
globbed; an empty-string `--input_folder` falls back to the default
folder. -/
theorem zip_path_precedence_witness :
    mainZipPaths (fun _ => ["other.zip"]) "in" (Args.mk "process" none ["z.zip"]) = ["z.zip"] ∧
    mainZipPaths (fun f => [f ++ "/g.zip"]) "in" (Args.mk "process" (some "dir") [])
      = ["dir" ++ "/g.zip"] ∧
    mainZipPaths (fun f => [f ++ "/g.zip"]) "in" (Args.mk "process" (some "") [])
      = ["in" ++ "/g.zip"] :=
  ⟨((zip_path_precedence (fun _ => ["other.zip"]) "in"
      (Args.mk "process" none ["z.zip"])).1 (by decide)).1,
   ((zip_path_precedence (fun f => [f ++ "/g.zip"]) "in"
      (Args.mk "process" (some "dir") [])).2.1 rfl "dir" rfl (by decide)),
   ((zip_path_precedence (fun f => [f ++ "/g.zip"]) "in"
      (Args.mk "process" (some "") [])).2.2 rfl (Or.inr rfl))⟩

/-- C9: every `main` run after successful parsing ends with the
`--- Final List of Main Symbols ---` header print followed by the
`list_symbols_simple(PROJECT_SYMBOL_LIB, print_list=True)` call, in both the
no-ZIP-files case (after the warning) and the processed/purged case. -/
theorem main_ends_with_symbol_list (glob : String → List String) (inp lib : String)
    (args : Args) :
    ∃ pre, mainTrace glob inp lib args
      = pre ++ [CEvent.print "\n--- Final List of Main Symbols ---",
                CEvent.listSymbols lib true] := by
  unfold mainTrace finalEvents
  by_cases h : (mainZipPaths glob inp args).isEmpty
  · refine ⟨[CEvent.print ("Warning: No ZIP files found in " ++ sq ++
        mainSourceFolder inp args ++ sq ++ " to process/purge.")], ?_⟩
    simp [h]
  · have h' : (mainZipPaths glob inp args).isEmpty = false := by simpa using h
    refine ⟨((mainZipPaths glob inp args).map (fun zip_file =>
        [CEvent.print ("\n--- " ++ modeName args.action ++ " " ++ pathName zip_file ++ " ---"),
         CEvent.call (actionFuncOf args.action) zip_file])).flatten, ?_⟩
    simp [h']

theorem execute_library_action_snd (run : List String → RunOutcome)
    (py cli : String) (paths : List String) (ip : Bool) :
    (execute_library_action run py cli paths ip).2 = [execCmd py cli paths ip] := by
  unfold execute_library_action
  cases hr : run (execCmd py cli paths ip) with
  | completed rc out err => by_cases h0 : rc = 0 <;> simp [hr, h0]
  | fileNotFound => simp [hr]
  | exc e => simp [hr]

/-- C2: `execute_library_action` hands `subprocess.run` exactly the command
`[sys.executable, str(CLI_SCRIPT_PATH), action]` followed by `str(p)` for each
`p` in `paths` in order, with `action = "purge"` iff `is_purge`. -/
theorem execute_spawns_exact_command (run : List String → RunOutcome)
    (py cli : String) (paths : List String) (ip : Bool) :
    (execute_library_action run py cli paths ip).2
      = [[py, cli, if ip then "purge" else "process"] ++ paths] := by
  rw [execute_library_action_snd]
  rfl

/-- C3: `execute_library_action` never raises: it returns `(True, stdout ++
stderr)` exactly when the subprocess exits with code 0; on a non-zero exit
code it returns `False` with the output wrapped between the CLI ERROR
markers naming the exit code; and a spawn-time exception is converted into a
`(False, message)` result. -/
theorem execute_reports_outcome (run : List String → RunOutcome)
    (py cli : String) (paths : List String) (ip : Bool) :
    (∀ rc out err, run (execCmd py cli paths ip) = RunOutcome.completed rc out err →
      (((execute_library_action run py cli paths ip).1.1 = true) ↔ rc = 0) ∧
      (rc = 0 → (execute_library_action run py cli paths ip).1 = (true, out ++ err)) ∧
      (rc ≠ 0 → (execute_library_action run py cli paths ip).1
          = (false, cliErrorWrap rc (out ++ err)))) ∧
    (run (execCmd py cli paths ip) = RunOutcome.fileNotFound →
      (execute_library_action run py cli paths ip).1
        = (false, "ERROR: Python interpreter or CLI script not found.")) ∧
    (∀ e, run (execCmd py cli paths ip) = RunOutcome.exc e →
      (execute_library_action run py cli paths ip).1
        = (false, "CRITICAL ERROR during CLI execution: " ++ e)) := by
  refine ⟨?_, ?_, ?_⟩
  · intro rc out err hr
    by_cases h0 : rc = 0
    · subst h0
      simp [execute_library_action, hr]
    · simp [execute_library_action, hr, h0]
  · intro hr
    simp [execute_library_action, hr]
  · intro e hr
    simp [execute_library_action, hr]

/-- Witness for C3 at a concrete input: exit code 0 yields the concatenated
streams with success. -/
theorem execute_reports_outcome_witness :
    (execute_library_action (fun _ => RunOutcome.completed 0 "o" "e")
        "py" "cli" ["a.zip"] false).1 = (true, "o" ++ "e") :=
  ((execute_reports_outcome (fun _ => RunOutcome.completed 0 "o" "e")
      "py" "cli" ["a.zip"] false).1 0 "o" "e" rfl).2.1 rfl

theorem get_active_foldl (ui : String → Option Bool) (l : List (Nat × String))
    (acc : List String) :
    (l.foldl (fun active_paths ip =>
      match ui (checkbox_tag ip.1) with
      | some true => active_paths ++ [ip.2]
      | some false => active_paths
      | none => active_paths) acc)
      = acc ++ (l.filter (fun ip => ui (checkbox_tag ip.1) == some true)).map Prod.snd := by
  induction l generalizing acc with
  | nil => simp
  | cons h t ih =>
    cases hui : ui (checkbox_tag h.1) with
    | none => simp [List.foldl_cons, List.filter_cons, hui, ih]
    | some b => cases b <;> simp [List.foldl_cons, List.filter_cons, hui, ih]

/-- C4: `get_active_files_for_processing` returns exactly those entries of
`all_selected_paths` whose `checkbox_i` widget exists and is checked,
in the original order — in particular the result is a sublist (ordered
subsequence) of `all_selected_paths`. -/
theorem get_active_is_checked_subsequence (ui : String → Option Bool)
    (paths : List String) :
    get_active_files_for_processing ui paths
      = (paths.enum.filter (fun ip => ui (checkbox_tag ip.1) == some true)).map Prod.snd ∧
    (get_active_files_for_processing ui paths).Sublist paths := by
  have he : get_active_files_for_processing ui paths
      = (paths.enum.filter (fun ip => ui (checkbox_tag ip.1) == some true)).map Prod.snd := by
    simpa [get_active_files_for_processing] using get_active_foldl ui paths.enum []
  refine ⟨he, ?_⟩
  rw [he]
  have hs : ((paths.enum.filter (fun ip => ui (checkbox_tag ip.1) == some true)).map
      Prod.snd).Sublist (paths.enum.map Prod.snd) :=
    (List.filter_sublist paths.enum).map Prod.snd
  simpa [List.enum_map_snd] using hs

/-- C5: when no file checkbox is checked, `process_action` logs an error and
returns without invoking `execute_library_action`: no subprocess spawn
appears in its trace. -/
theorem process_action_empty_selection (run : List String → RunOutcome)
    (py cli : String) (ui : String → Option Bool) (paths : List String) (ip : Bool)
    (h : get_active_files_for_processing ui paths = []) :
    process_action run py cli ui paths ip
      = [GEvent.log "ERROR: No active ZIP files selected for action."] ∧
    (process_action run py cli ui paths ip).filter isSpawnEvent = [] := by
  have he : (get_active_files_for_processing ui paths).isEmpty = true := by simp [h]
  constructor <;> simp [process_action, he, isSpawnEvent]

/-- Witness for C5 at a concrete input: one path whose checkbox widget does
not exist. -/
theorem process_action_empty_selection_witness :
    process_action (fun _ => RunOutcome.completed 0 "" "") "py" "cli"
        (fun _ => none) ["a.zip"] false
      = [GEvent.log "ERROR: No active ZIP files selected for action."] ∧
    (process_action (fun _ => RunOutcome.completed 0 "" "") "py" "cli"
        (fun _ => none) ["a.zip"] false).filter isSpawnEvent = [] :=
  process_action_empty_selection _ _ _ _ _ _ (by decide)

theorem filter_spawn_map_log (l : List String) :
    (l.map GEvent.log).filter isSpawnEvent = [] := by
  induction l with
  | nil => rfl
  | cons h t ih => simp [isSpawnEvent, ih]

theorem all_not_spawn_map_log (l : List String) :
    (l.map GEvent.log).all (fun e => !(isSpawnEvent e)) = true := by
  induction l with
  | nil => rfl
  | cons h t ih => simp [isSpawnEvent, ih]

/-- C6: each `process_action` invocation spawns at most one subprocess —
exactly one when some file is checked — and never retries: every event after
the spawn is a log. -/
theorem process_action_single_spawn (run : List String → RunOutcome)
    (py cli : String) (ui : String → Option Bool) (paths : List String) (ip : Bool) :
    ((process_action run py cli ui paths ip).filter isSpawnEvent).length ≤ 1 ∧
    (get_active_files_for_processing ui paths ≠ [] →
      ((process_action run py cli ui paths ip).filter isSpawnEvent).length = 1) ∧
    ((((process_action run py cli ui paths ip).dropWhile
        (fun e => !(isSpawnEvent e))).drop 1).all (fun e => !(isSpawnEvent e)) = true) := by
  by_cases h : get_active_files_for_processing ui paths = []
  · have he : (get_active_files_for_processing ui paths).isEmpty = true := by simp [h]
    refine ⟨?_, fun hne => absurd h hne, ?_⟩ <;>
      simp [process_action, he, isSpawnEvent]
  · have he : (get_active_files_for_processing ui paths).isEmpty = false := by
      simpa [List.isEmpty_iff] using h
    have hsnd := execute_library_action_snd run py cli
      (get_active_files_for_processing ui paths) ip
    refine ⟨?_, fun _ => ?_, ?_⟩ <;>
      simp [process_action, he, hsnd, List.filter_append, filter_spawn_map_log,
        isSpawnEvent, List.dropWhile_cons, List.all_append, all_not_spawn_map_log]

/-- Witness for C6 at a concrete input: one checked path gives exactly one
spawn. -/
theorem process_action_single_spawn_witness :
    ((process_action (fun _ => RunOutcome.completed 0 "" "") "py" "cli"
        (fun _ => some true) ["a.zip"] false).filter isSpawnEvent).length = 1 :=
  (process_action_single_spawn (fun _ => RunOutcome.completed 0 "" "") "py" "cli"
      (fun _ => some true) ["a.zip"] false).2.1 (by decide)

theorem reload_invariant_of_isDir (fs : FS) (s : GuiState) (f : String)
    (h : fs.isDir f = true) :
    guiInvariant (reload_folder_from_path fs s f) ((fs.globZips f).filter fs.fileExists) := by
  unfold reload_folder_from_path guiInvariant
  by_cases hv : ((fs.globZips f).filter fs.fileExists).isEmpty
  · rw [List.isEmpty_iff] at hv
    simp [h, hv, build_file_list_ui]
  · have hv' : ((fs.globZips f).filter fs.fileExists).isEmpty = false := by simpa using hv
    have hne : (fs.globZips f).filter fs.fileExists ≠ [] := by
      simpa [List.isEmpty_iff] using hv
    simp [h, hv', build_file_list_ui, hne]

/-- C10 counterexample: from a state in which the action section is shown,
`reload_folder_from_path` on a folder that does not exist rebuilds the file
list empty but leaves the action section shown, so the claimed invariant
fails after this file-list-rebuilding operation. -/
theorem reload_missing_folder_invariant_violated :
    (reload_folder_from_path emptyFS shownState "missing").action_shown = true ∧
    (reload_folder_from_path emptyFS shownState "missing").all_selected_paths = [] ∧
    ¬ guiInvariant (reload_folder_from_path emptyFS shownState "missing") [] := by
  refine ⟨rfl, rfl, fun hinv => ?_⟩
  exact (hinv.1.mp rfl) rfl

/-- C10 amended: after `clear_view_state` the invariant holds with the empty
list; after `reload_folder_from_path` it holds whenever the target folder
exists and is a directory (in the folder-not-found branch the action-section
visibility is left unchanged, so the invariant can fail there); after
`initial_load` it holds when the input folder is a directory and the section
started hidden (as at startup), and also in the missing-folder branch from
the startup state; after `show_native_folder_dialog` it holds when the
dialog is cancelled or finds no ZIPs, and, when ZIPs are found, whenever the
parent folder of the first hit still exists as a directory. -/
theorem rebuild_invariant_amended (fs : FS) (s : GuiState) :
    guiInvariant (clear_view_state s) [] ∧
    (∀ f, fs.isDir f = true →
      guiInvariant (reload_folder_from_path fs s f) ((fs.globZips f).filter fs.fileExists)) ∧
    (∀ inp, fs.isDir inp = true → s.action_shown = false →
      guiInvariant (initial_load fs inp s) ((fs.globZips inp).filter fs.fileExists)) ∧
    (∀ inp, fs.isDir inp = false → s.action_shown = false → s.all_selected_paths = [] →
      guiInvariant (initial_load fs inp s) []) ∧
    guiInvariant (show_native_folder_dialog fs none s) [] ∧
    (∀ f, fs.globZips f = [] →
      guiInvariant (show_native_folder_dialog fs (some f) s) []) ∧
    (∀ f p ps, fs.globZips f = p :: ps → fs.isDir (parentOf p) = true →
      guiInvariant (show_native_folder_dialog fs (some f) s)
        ((fs.globZips (parentOf p)).filter fs.fileExists)) := by
  refine ⟨?_, ?_, ?_, ?_, ?_, ?_, ?_⟩
  · simp [guiInvariant, clear_view_state, build_file_list_ui, log_msg]
  · intro f h
    exact reload_invariant_of_isDir fs s f h
  · intro inp h hshown
    unfold initial_load guiInvariant
    by_cases hv : ((fs.globZips inp).filter fs.fileExists).isEmpty
    · rw [List.isEmpty_iff] at hv
      simp [h, hv, build_file_list_ui, log_msg, hshown]
    · have hv' : ((fs.globZips inp).filter fs.fileExists).isEmpty = false := by simpa using hv
      have hne : (fs.globZips inp).filter fs.fileExists ≠ [] := by
        simpa [List.isEmpty_iff] using hv
      simp [h, hv', build_file_list_ui, log_msg, hne]
  · intro inp h hshown hpaths
    unfold initial_load guiInvariant
    simp [h, log_msg, hshown, hpaths]
  · simp [guiInvariant, show_native_folder_dialog, select_zip_folder, build_file_list_ui,
      log_msg]
  · intro f hg
    simp [guiInvariant, show_native_folder_dialog, select_zip_folder, hg,
      build_file_list_ui, log_msg]
  · intro f p ps hg hdir
    unfold show_native_folder_dialog select_zip_folder
    simp only [hg, List.isEmpty_cons, Bool.false_eq_true, if_false, List.headD_cons]
    exact reload_invariant_of_isDir fs _ (parentOf p) hdir

/-- Witness for C10 (amended) at concrete inputs: a filesystem with one
directory `d` holding `d/a.zip`, starting from the startup state. -/
theorem rebuild_invariant_amended_witness :
    guiInvariant (clear_view_state startState) [] ∧
    guiInvariant (reload_folder_from_path oneZipFS startState "d")
      ((oneZipFS.globZips "d").filter oneZipFS.fileExists) ∧
    guiInvariant (initial_load oneZipFS "d" startState)
      ((oneZipFS.globZips "d").filter oneZipFS.fileExists) ∧
    guiInvariant (show_native_folder_dialog oneZipFS (some "d") startState)
      ((oneZipFS.globZips (parentOf "d/a.zip")).filter oneZipFS.fileExists) :=
  ⟨(rebuild_invariant_amended oneZipFS startState).1,
   (rebuild_invariant_amended oneZipFS startState).2.1 "d" rfl,
   (rebuild_invariant_amended oneZipFS startState).2.2.1 "d" rfl rfl,
   (rebuild_invariant_amended oneZipFS startState).2.2.2.2.2.2 "d" "d/a.zip" []
     (by decide) rfl⟩

end KicadLibMgr
